import Mathlib

/-!
Verification development for the sistrum SIS protocol driver.

This file gives a shallow embedding of the core of the repository:

* the value converters of src/sistrum/_event.py (BasicValueConverter and
  EnumValueConverter),
* the event classes and the generated matchers of src/sistrum/_event.py,
* the error taxonomy of src/sistrum/exceptions.py,
* the protocol session state machine of src/sistrum/_protocol.py
  (handle_line, _handle_device_event, make_request),
* the _ArrayEventProperty mapping of src/sistrum/_event.py,
* the construction-time validation of generic_event_property.

Python dynamic values are modelled by the inductive PyVal; fallible Python
operations (int(...), dict lookup, raising constructors) return Option or
Except values. Compiled regular expressions are modelled by their match
functions, passed as parameters to the generated matchers, exactly as the
compiled pattern object is captured by the generated closures in the source.
-/

/-- A dynamically typed Python value as it flows through the engine:
integers, booleans, raw strings and enumeration members. -/
inductive PyVal where
  | int (n : Int)
  | bool (b : Bool)
  | str (s : String)
  | enum (tag : String)
deriving DecidableEq, Repr

/-- Decode one decimal digit character, as Python int() does per character. -/
def charDigit (c : Char) : Option Nat :=
  if '0' ≤ c ∧ c ≤ '9' then some (c.toNat - '0'.toNat) else none

/-- Accumulate decimal digits left to right; any non-digit character makes
the whole parse fail, as Python int() raises ValueError. -/
def decodeDecimalDigits : List Char → Nat → Option Nat
  | [], acc => some acc
  | c :: cs, acc =>
    match charDigit c with
    | some d => decodeDecimalDigits cs (acc * 10 + d)
    | none => none

/-- Embedding of Python int(s) on a string: an optional leading minus sign
followed by at least one decimal digit; anything else fails. -/
def pyIntParse (s : String) : Option Int :=
  match s.data with
  | [] => none
  | '-' :: rest =>
    match rest with
    | [] => none
    | _ => (decodeDecimalDigits rest 0).map (fun n => -(n : Int))
  | l => (decodeDecimalDigits l 0).map (fun n => (n : Int))

/-- Embedding of the Python format specification d applied by
BasicValueConverter.to_raw: integers render as optional sign plus decimal
digits, and bools (being ints in Python) render as 1 or 0. Other values
make the format call raise, modelled as none. -/
def pyFormatD : PyVal → Option String
  | .int n =>
    some (if n < 0 then "-" ++ String.mk (Nat.toDigits 10 n.natAbs)
          else String.mk (Nat.toDigits 10 n.natAbs))
  | .bool b => some (if b then "1" else "0")
  | _ => none

/-- A value converter: to_api decodes a wire token into an API value and
to_raw renders an API value into a wire token (src/sistrum/_event.py,
class ValueConverter). Failure of the underlying Python operation is none. -/
structure ValueConverter where
  to_api : String → Option PyVal
  to_raw : PyVal → Option String

/-- Embedding of Python int(obj) used as BasicValueConverter(int).to_api. -/
def pyIntOfStr (s : String) : Option PyVal :=
  (pyIntParse s).map .int

/-- Embedding of Python bool(obj) on a string, used as
BasicValueConverter(bool).to_api: a string is truthy iff it is nonempty. -/
def pyBoolOfStr (s : String) : Option PyVal :=
  some (.bool (!s.isEmpty))

/-- BasicValueConverter(prim_type): to_api applies the primitive type to the
wire string, to_raw formats with the d format specification. -/
def BasicValueConverter (prim : String → Option PyVal) : ValueConverter :=
  ⟨prim, pyFormatD⟩

/-- The module-level _BOOL_VALUE_CONVERTER = BasicValueConverter(bool). -/
def BOOL_VALUE_CONVERTER : ValueConverter :=
  BasicValueConverter pyBoolOfStr

/-- The module-level _INT_VALUE_CONVERTER = BasicValueConverter(int). -/
def INT_VALUE_CONVERTER : ValueConverter :=
  BasicValueConverter pyIntOfStr

/-- EnumValueConverter(mapping): to_api is dictionary lookup (KeyError is
none); to_raw scans the mapping in insertion order for the first entry whose
value equals the argument (ValueError is none). The Python dict is modelled
as an insertion-ordered association list. -/
def EnumValueConverter (mapping : List (String × PyVal)) : ValueConverter :=
  ⟨fun s => (mapping.find? (fun p => p.1 == s)).map (fun p => p.2),
   fun v => (mapping.find? (fun p => decide (p.2 = v))).map (fun p => p.1)⟩

/-- An event as built by the matchers and mutated by dispatch: the three
Python classes Event, ValueChangeEvent and IndexValueChangeEvent are merged
into one record with optional value and index payloads. The source field of
the Python classes is modelled by the flag sourceIsSession (false models
source = None, true models source = the session). -/
structure PyEvent where
  name : Option String
  sourceIsSession : Bool
  value : Option PyVal
  index : Option PyVal
deriving DecidableEq, Repr

/-- Embedding of _make_event_matcher: on a pattern match return a bare
Event(None, None), otherwise None. The compiled pattern is modelled by its
boolean match function. -/
def make_event_matcher (reMatch : String → Bool) : String → Option PyEvent :=
  fun line =>
    if reMatch line then some ⟨none, false, none, none⟩ else none

/-- Embedding of _make_valuechangeevent_matcher: on a match return
ValueChangeEvent(None, None, type_converter.to_api(match[1])). The compiled
pattern is modelled by a function returning capture group 1. -/
def make_valuechangeevent_matcher (to_api : String → Option PyVal)
    (reMatch : String → Option String) : String → Option PyEvent :=
  fun line =>
    match reMatch line with
    | some g1 => (to_api g1).map (fun v => ⟨none, false, some v, none⟩)
    | none => none

/-- Embedding of _make_indexvaluechangeevent_matcher: on a match the source
builds IndexValueChangeEvent(None, None, int(match[1]),
type_converter.to_api(match[2])); the constructor parameter order is
(name, source, value, index), so int(match[1]) lands in the value field and
to_api(match[2]) lands in the index field. The compiled pattern is modelled
by a function returning capture groups 1 and 2. -/
def make_indexvaluechangeevent_matcher (to_api : String → Option PyVal)
    (reMatch : String → Option (String × String)) : String → Option PyEvent :=
  fun line =>
    match reMatch line with
    | some (g1, g2) =>
      match pyIntParse g1, to_api g2 with
      | some i, some v => some ⟨none, false, some (.int i), some v⟩
      | _, _ => none
    | none => none

/-- Embedding of the compiled notification pattern of the dvs304 property
video_input_format, the regular expression matching a digit capture group,
the literal Typ, and a second digit capture group, anchored on both sides. -/
def vifPatternMatch (line : String) : Option (String × String) :=
  match line.data with
  | [a, 'T', 'y', 'p', b] =>
    if a.isDigit && b.isDigit then some (String.mk [a], String.mk [b]) else none
  | _ => none

/-- The named error kinds of src/sistrum/exceptions.py: one constructor per
exception class plus the generic base SISError used for unknown codes. -/
inductive SISErrorKind where
  | invalidInputNumber
  | invalidSwitchAttempt
  | invalidFunctionNumber
  | invalidCommand
  | invalidPresetNumber
  | invalidPortNumber
  | invalidParameter
  | invalidConfiguration
  | invalidCommandForSignalType
  | busy
  | privilegeViolation
  | deviceNotPresent
  | maximumNumberOfConnectionsExceeded
  | invalidEventNumber
  | badFileName
  | hardwareFailure
  | attemptToBreakPortPassthrough
  | incorrectVChipPassword
  | badFileTypeForLogo
  | generic
deriving DecidableEq, Repr

/-- A SISError instance: the class (kind), the stored code attribute (an int
for the named subclasses, the raw code string for the generic base), and the
description message. -/
structure SISError where
  kind : SISErrorKind
  code : PyVal
  desc : String
deriving DecidableEq, Repr

/-- The exception classes of src/sistrum/exceptions.py with their numeric
codes and descriptions, in source order. -/
def errorClasses : List (SISErrorKind × Nat × String) :=
  [(.invalidInputNumber, 1, "Invalid input number"),
   (.invalidSwitchAttempt, 6, "Invalid switch attempt in this mode"),
   (.invalidFunctionNumber, 9, "Invalid function number"),
   (.invalidCommand, 10, "Invalid command"),
   (.invalidPresetNumber, 11, "Invalid preset number"),
   (.invalidPortNumber, 12, "Invalid port number"),
   (.invalidParameter, 13, "Invalid parameter"),
   (.invalidConfiguration, 14, "Not valid for this configuration"),
   (.invalidCommandForSignalType, 17, "Invalid command for signal type"),
   (.busy, 22, "Busy"),
   (.privilegeViolation, 24, "Privilege violation"),
   (.deviceNotPresent, 25, "Device not present"),
   (.maximumNumberOfConnectionsExceeded, 26, "Maximum number of connections exceeded"),
   (.invalidEventNumber, 27, "Invalid event number"),
   (.badFileName, 28, "Bad filename/File not found"),
   (.hardwareFailure, 30, "Hardware failure"),
   (.attemptToBreakPortPassthrough, 31, "Attempt to break port passthrough when not set"),
   (.incorrectVChipPassword, 32, "Incorrect V-chip password"),
   (.badFileTypeForLogo, 33, "Bad file type for logo")]

/-- The module-level _codes_to_exception_classes table: each class is keyed
by the letter E followed by its decimal code. -/
def codes_to_exception_classes : List (String × (SISErrorKind × Nat × String)) :=
  errorClasses.map (fun c => ("E" ++ toString c.2.1, c))

/-- Embedding of exception_from_error_code: a known key returns an instance
of its class (carrying the numeric code and description); an unknown key
returns SISError(code, "") carrying the raw code string. -/
def exception_from_error_code (code : String) : SISError :=
  match codes_to_exception_classes.find? (fun p => p.1 == code) with
  | some p => ⟨p.2.1, .int p.2.2.1, p.2.2.2⟩
  | none => ⟨.generic, .str code, ""⟩

/-- Embedding of the Python string method startswith, used by handle_line to
recognise error reply lines: the character list of the candidate is a prefix
of the character list of the line. -/
def pyStartsWith (s p : String) : Bool :=
  p.data.isPrefixOf s.data

/-- A registered event listener: an identity for observing invocation order
and a pure response function (the boolean a Python listener returns). -/
structure Listener where
  id : Nat
  respond : PyEvent → Bool

/-- The eligibility test of the dispatch loop: the registered name is the
wildcard or equals the event name (the Python membership test
listener_event_name in ("*", name)). -/
def listenerEligible (lname name : String) : Bool :=
  lname == "*" || lname == name

/-- The state of an _ExtronProtocol session: the waiting flag
_waiting_for_response, the captured _response line, the captured
_response_exception, the _line_handler_event flag, the _event_members list
of (name, fmatch) pairs, the _listeners list, and a log of the raw strings
written to the transport. -/
structure ExtronProtocol where
  waiting_for_response : Bool
  response : Option String
  response_exception : Option SISError
  line_handler_event : Bool
  event_members : List (String × (String → Option PyEvent))
  listeners : List (String × Listener)
  written : List String

/-- The listener invocation loop inside _handle_device_event: walk the
listener list in registration order, invoke each listener whose registered
name is the wildcard or the event name, and stop at the first listener whose
return value is truthy. Returns the identities of the invoked listeners in
order, and whether some listener stopped the loop. -/
def invokeListeners (ls : List (String × Listener)) (name : String)
    (ev : PyEvent) : List Nat × Bool :=
  match ls with
  | [] => ([], false)
  | (lname, l) :: rest =>
    if listenerEligible lname name then
      if l.respond ev then ([l.id], true)
      else
        let r := invokeListeners rest name ev
        (l.id :: r.1, r.2)
    else invokeListeners rest name ev

/-- Embedding of _handle_device_event: scan the event members in order; for
the first member whose fmatch returns an event object (Python truthiness:
any Event object is truthy, None is falsy), set the event name to the member
name and the source to the session, run the listener loop, and report True;
if no member matches report False. The returned list is the identities of
the invoked listeners. -/
def handle_device_event (members : List (String × (String → Option PyEvent)))
    (ls : List (String × Listener)) (line : String) : Bool × List Nat :=
  match members with
  | [] => (false, [])
  | (name, fmatch) :: rest =>
    match fmatch line with
    | some ev0 =>
      (true, (invokeListeners ls name
        { ev0 with name := some name, sourceIsSession := true }).1)
    | none => handle_device_event rest ls line

/-- The first event member whose fmatch accepts the line, with the event it
produces: the member/event pair the loop of _handle_device_event commits to. -/
def firstMatch (members : List (String × (String → Option PyEvent)))
    (line : String) : Option (String × PyEvent) :=
  match members with
  | [] => none
  | (name, fmatch) :: rest =>
    match fmatch line with
    | some ev0 => some (name, ev0)
    | none => firstMatch rest line

/-- Embedding of handle_line: while a request is waiting, a line starting
with E stores the decoded taxonomy error, the raw line is stored as the
response in every case, and the waiting requester is signalled; otherwise
the line goes to event dispatch. The second component is the list of
listener identities invoked for the line. -/
def handle_line (σ : ExtronProtocol) (line : String) :
    ExtronProtocol × List Nat :=
  if σ.waiting_for_response then
    let σa := if pyStartsWith line "E"
      then { σ with response_exception := some (exception_from_error_code line) }
      else σ
    ({ σa with response := some line, line_handler_event := true }, [])
  else
    (σ, (handle_device_event σ.event_members σ.listeners line).2)

/-- Deliver a list of lines to handle_line in order, keeping only the state
(used to model the lines the reader thread delivers during a request wait). -/
def processLines (σ : ExtronProtocol) : List String → ExtronProtocol
  | [] => σ
  | l :: ls => processLines (handle_line σ l).1 ls

/-- Embedding of make_request: set _waiting_for_response, write the request
to the transport without terminator, let the delivered lines drive
handle_line while waiting (an empty list models a timeout with no reply),
then clear the signal and the waiting flag, and finally run
_handle_possible_exception_from_thread: a captured exception is cleared and
raised, otherwise the captured response is returned. Note the captured
response and exception slots are not cleared on entry. -/
def make_request (σ : ExtronProtocol) (request : String)
    (deliveredLines : List String) :
    Except SISError (Option String) × ExtronProtocol :=
  let σ1 := { σ with waiting_for_response := true,
                     written := σ.written ++ [request] }
  let σ2 := processLines σ1 deliveredLines
  let σ3 := { σ2 with line_handler_event := false,
                      waiting_for_response := false }
  match σ3.response_exception with
  | some e => (.error e, { σ3 with response_exception := none })
  | none => (.ok σ3.response, σ3)

/-- A freshly constructed session with no descriptors and no listeners:
the field initialisation of the _ExtronProtocol constructor. -/
def freshProtocol : ExtronProtocol :=
  ⟨false, none, none, false, [], [], []⟩

/-- Embedding of _ArrayEventProperty: the declared index domain and the two
item accessors bound at construction. The parent session is threaded
explicitly through the accessors, and each accessor returns the new session
state (so transport writes made by make_request inside the accessor are
observable in the written log). -/
structure ArrayEventProperty where
  indices : List Int
  fgetitem : ExtronProtocol → Int → ExtronProtocol × Option PyVal
  fsetitem : ExtronProtocol → Int → PyVal → ExtronProtocol

/-- Embedding of _ArrayEventProperty.__getitem__: an index outside the
declared domain raises IndexError("invalid index") before the item getter
(and hence any transport write) runs; otherwise the item getter runs. -/
def ArrayEventProperty.getitem (a : ArrayEventProperty) (σ : ExtronProtocol)
    (index : Int) : ExtronProtocol × Except String (Option PyVal) :=
  if !(a.indices.contains index) then (σ, .error "invalid index")
  else
    let r := a.fgetitem σ index
    (r.1, .ok r.2)

/-- Embedding of _ArrayEventProperty.__setitem__: an index outside the
declared domain raises IndexError("invalid index") before the item setter
(and hence any transport write) runs; otherwise the item setter runs. -/
def ArrayEventProperty.setitem (a : ArrayEventProperty) (σ : ExtronProtocol)
    (index : Int) (value : PyVal) : ExtronProtocol × Except String Unit :=
  if !(a.indices.contains index) then (σ, .error "invalid index")
  else (a.fsetitem σ index value, .ok ())

/-- Embedding of _ArrayEventProperty.__len__: delegates to the index domain. -/
def ArrayEventProperty.length (a : ArrayEventProperty) : Nat :=
  a.indices.length

/-- Embedding of _ArrayEventProperty.__iter__: iterates the index domain in
its own order. -/
def ArrayEventProperty.iter (a : ArrayEventProperty) : List Int :=
  a.indices

/-- Embedding of _ArrayEventProperty.__contains__: delegates to the index
domain. -/
def ArrayEventProperty.containsItem (a : ArrayEventProperty) (x : Int) : Bool :=
  a.indices.contains x

/-- The provenance of each slot of a constructed EventProperty: absent
(None), supplied by the caller (custom), or generated from the declaration
templates (generated). -/
inductive SlotSource where
  | absent
  | custom
  | generated
deriving DecidableEq, Repr

/-- The three slots of a constructed EventProperty, by provenance. -/
structure GEPShape where
  fget : SlotSource
  fset : SlotSource
  fmatch : SlotSource
deriving DecidableEq, Repr

/-- Embedding of the construction-time control flow of
generic_event_property at the presence level: each argument is recorded as
present or absent (for set_cmd_response, present means a truthy nonempty
pattern string), which is exactly the information the validation in the
source inspects. Raised ValueErrors become error results, as does the
UnboundLocalError hit when a generated matcher is requested without a
pattern (set_cmd_response_re is only assigned when set_cmd_response is
truthy, and the generator call evaluates it as an argument), and as does
the AttributeError hit in the indexed branch when fget is generated but
get_cmd is absent: there _make_getitemmer returns None and
_make_indexed_getter eagerly evaluates the return annotation of that None
item getter at construction time, before any matcher is generated. The
returned shape records the provenance of each slot of the resulting
EventProperty, in a non-sphinx runtime where the doc-only getter is None. -/
def generic_event_property (hasType hasIndices hasGetCmd hasSetCmd
    hasSetCmdResponse hasFget hasFset hasFmatch : Bool) :
    Except String GEPShape :=
  if hasGetCmd && hasFget then
    .error "choose only one of get_cmd and fget, but not both"
  else if hasSetCmd && hasFset && !hasIndices then
    .error "choose only one of set_cmd and fset, but not both"
  else if !hasType then
    if hasGetCmd || hasSetCmd then
      .error "get/set must be unspecified for None-type events"
    else if hasFmatch then
      .ok ⟨.absent, if hasFset then .custom else .absent, .custom⟩
    else if hasSetCmdResponse then
      .ok ⟨.absent, if hasFset then .custom else .absent, .generated⟩
    else .error "UnboundLocalError: set_cmd_response_re"
  else if hasIndices then
    if !hasFget && !hasGetCmd then
      .error "AttributeError: NoneType object has no attribute annotations"
    else
      let fg := if hasFget then SlotSource.custom else SlotSource.generated
      let fs := if hasFset then SlotSource.custom else SlotSource.absent
      if hasFmatch then .ok ⟨fg, fs, .custom⟩
      else if hasSetCmdResponse then .ok ⟨fg, fs, .generated⟩
      else .error "UnboundLocalError: set_cmd_response_re"
  else
    let fg := if hasFget then SlotSource.custom
      else if hasGetCmd then SlotSource.generated else SlotSource.absent
    let fs := if hasFset then SlotSource.custom
      else if hasSetCmd then SlotSource.generated else SlotSource.absent
    if hasFmatch then .ok ⟨fg, fs, .custom⟩
    else if hasSetCmdResponse then .ok ⟨fg, fs, .generated⟩
    else .error "UnboundLocalError: set_cmd_response_re"

/-- Whether a declaration was rejected at construction time. -/
def isConstructionError : Except String GEPShape → Bool
  | .error _ => true
  | .ok _ => false

/-- The provenance of the matcher slot of an accepted declaration. -/
def matchSlotOf : Except String GEPShape → Option SlotSource
  | .ok sh => some sh.fmatch
  | .error _ => none

/-- C1: the claim states that for an indexed descriptor a notification line
with capture groups (i, v) produces an event whose index field is i and
whose value field is to_api(v). Evaluating the generated matcher of the
source on the line 2Typ8 (index capture 2, value capture 8, int converter)
shows the opposite: the positional constructor call puts int(match[1]) = 2
into the value field and to_api(match[2]) = 8 into the index field, because
the IndexValueChangeEvent constructor takes (name, source, value, index). -/
theorem c1_indexed_matcher_swaps_index_and_value :
    make_indexvaluechangeevent_matcher INT_VALUE_CONVERTER.to_api
        vifPatternMatch "2Typ8"
      = some ⟨none, false, some (.int 2), some (.int 8)⟩ := by
  rfl

/-- C3: the claim states to_api(to_raw(x)) == x over the declared domain for
the primitive converters, bool included. Evaluating the bool converter of
the source at False: to_raw(False) renders the string 0, and to_api applies
Python bool to that string, and a nonempty string is truthy, so the round
trip returns True, not False. -/
theorem c3_bool_converter_roundtrip_fails :
    BOOL_VALUE_CONVERTER.to_raw (.bool false) = some "0" ∧
    BOOL_VALUE_CONVERTER.to_api "0" = some (.bool true) :=
  ⟨rfl, rfl⟩

/-- C2 counterexample: the claim states make_request clears the captured
response before writing, so a timed-out request returns None. On a fresh
session, a first request that receives the reply X leaves X in the response
slot; a second request that receives no line at all (timeout) returns that
stale X instead of the None the claim requires. -/
theorem c2_timeout_returns_stale_response :
    (make_request (make_request freshProtocol "A" ["X"]).2 "B" []).1
      = .ok (some "X") := by
  rfl

/-- C2 amended: make_request marks the request in flight and writes the
command, but does not clear the captured response or error slots; when no
reply line is delivered before the timeout (and no error is pending), it
returns whatever the response slot already held, which is None only when no
line has been captured since the session was constructed. -/
theorem c2_make_request_timeout_returns_captured_slot
    (σ : ExtronProtocol) (req : String)
    (h : σ.response_exception = none) :
    (make_request σ req []).1 = .ok σ.response ∧
    (make_request σ req []).2.waiting_for_response = false ∧
    (make_request σ req []).2.written = σ.written ++ [req] := by
  simp [make_request, processLines, h]

/-- C2 witness: the amended theorem applied to a fresh session, where the
captured slot is still None and a timed-out request therefore returns None. -/
theorem c2_make_request_timeout_returns_captured_slot_witness :
    freshProtocol.response_exception = none ∧
    (make_request freshProtocol "Q" []).1 = .ok none :=
  ⟨rfl, (c2_make_request_timeout_returns_captured_slot freshProtocol "Q" rfl).1⟩

/-- C7 counterexample: the claim states that supplying both a templated and
a custom implementation for the same slot raises for every slot and every
combination of the other fields. The declaration of the mps112 input
property (value type, index domain, set_cmd and fset both given) is accepted
by the source: the setter conflict check is guarded by indices being None. -/
theorem c7_indexed_setter_conflict_not_rejected :
    generic_event_property true true false true true true true false
      = .ok ⟨.custom, .custom, .generated⟩ := by
  rfl

/-- C7 amended: supplying both get_cmd and fget is always a construction
error; supplying both set_cmd and fset is a construction error exactly when
no index domain is given, while with an index domain the pair is accepted
(the custom fset passing through) provided the declaration is otherwise
constructible, in particular provided a getter source is present, because
an index domain with neither fget nor get_cmd already fails at construction
when the generated indexed getter dereferences the missing item getter; and
supplying both set_cmd_response and fmatch is never a construction error,
the custom fmatch silently taking precedence over the pattern. -/
theorem c7_slot_conflict_rules :
    ∀ t i g s r fg fs fm : Bool,
      ((g && fg) = true →
        isConstructionError (generic_event_property t i g s r fg fs fm)
          = true) ∧
      ((s && fs && !i) = true →
        isConstructionError (generic_event_property t i g s r fg fs fm)
          = true) ∧
      ((t && i && !fg && !g) = true →
        isConstructionError (generic_event_property t i g s r fg fs fm)
          = true) ∧
      ((t && i && s && fs && !(g && fg) && (fg || g) && (fm || r)) = true →
        isConstructionError (generic_event_property t i g s r fg fs fm)
          = false) ∧
      ((t && r && fm && !(g && fg) && !(s && fs && !i)
          && (!i || fg || g)) = true →
        matchSlotOf (generic_event_property t i g s r fg fs fm)
          = some .custom) := by
  decide

/-- C7 witness: the amended theorem applied to a declaration supplying both
get_cmd and fget, which the source rejects. -/
theorem c7_slot_conflict_rules_witness :
    (true && true) = true ∧
    isConstructionError
        (generic_event_property true false true false false true false false)
      = true :=
  ⟨rfl, (c7_slot_conflict_rules true false true false false true false false).1 rfl⟩

/-- C4: delivering the line E13 while a request is in flight makes that
make_request raise the taxonomy error for code 13 (InvalidParameterError
carrying the numeric code 13), and afterwards the waiting flag is false and
the captured exception slot is empty; a subsequent request that receives a
fresh reply line gets that fresh line, not a stale error. -/
theorem c4_error_line_raises_and_clears (σ : ExtronProtocol) (req : String) :
    (make_request σ req ["E13"]).1
        = .error ⟨.invalidParameter, .int 13, "Invalid parameter"⟩ ∧
    (make_request σ req ["E13"]).2.waiting_for_response = false ∧
    (make_request σ req ["E13"]).2.response_exception = none ∧
    (make_request (make_request σ req ["E13"]).2 "Y" ["Out1"]).1
        = .ok (some "Out1") :=
  ⟨rfl, rfl, rfl, rfl⟩

/-- C5: while a request is in flight, a delivered line is always captured as
the reply (decoded as a taxonomy error when it starts with E) and the waiter
is signalled, and no event listener is ever invoked for it, whatever the
registered descriptors; this holds for every line, in particular for lines
matching a registered notification pattern. -/
theorem c5_inflight_line_never_dispatched (σ : ExtronProtocol) (line : String)
    (h : σ.waiting_for_response = true) :
    (handle_line σ line).2 = [] ∧
    (handle_line σ line).1.response = some line ∧
    (handle_line σ line).1.line_handler_event = true ∧
    (handle_line σ line).1.response_exception =
      (if pyStartsWith line "E"
       then some (exception_from_error_code line)
       else σ.response_exception) := by
  by_cases hs : pyStartsWith line "E" = true
  · simp [handle_line, h, hs]
  · simp [handle_line, h, hs]

/-- An embedding of the compiled notification pattern of the mps112 volume
property, the regular expression matching the literal Vol followed by a
digits capture group, anchored on both sides. -/
def volPatternMatch (line : String) : Option String :=
  match line.data with
  | 'V' :: 'o' :: 'l' :: rest =>
    if !rest.isEmpty && rest.all Char.isDigit then some (String.mk rest)
    else none
  | _ => none

/-- A session with a request in flight and a registered descriptor whose
pattern matches the line Vol40, plus a wildcard listener. -/
def inflightSession : ExtronProtocol :=
  ⟨true, none, none, false,
   [("volume",
     make_valuechangeevent_matcher INT_VALUE_CONVERTER.to_api volPatternMatch)],
   [("*", ⟨0, fun _ => true⟩)], []⟩

/-- C5 witness: on a session with an in-flight request, the line Vol40
matches the registered volume pattern and still reaches no listener. -/
theorem c5_inflight_line_never_dispatched_witness :
    inflightSession.waiting_for_response = true ∧
    (firstMatch inflightSession.event_members "Vol40").isSome = true ∧
    (handle_line inflightSession "Vol40").2 = [] :=
  ⟨rfl, rfl,
   (c5_inflight_line_never_dispatched inflightSession "Vol40" rfl).1⟩

/-- C10: whatever lines are delivered during the wait, after make_request
completes (by returning a response or by raising a captured device error)
the captured exception slot of the session is empty: a captured error is
consumed exactly once, being cleared before it is raised. -/
theorem c10_exception_slot_empty_after_request (σ : ExtronProtocol)
    (req : String) (lines : List String) :
    (make_request σ req lines).2.response_exception = none := by
  simp only [make_request]
  split
  · rfl
  · assumption

/-- Modelled from the spec: invoke listeners in order and stop at the first
listener whose return value is true, reporting the invoked identities. -/
def specListenerRun : List Listener → PyEvent → List Nat
  | [], _ => []
  | l :: rest, ev =>
    if l.respond ev then [l.id] else l.id :: specListenerRun rest ev

/-- The listener loop of the source invokes exactly the eligible listeners
(wildcard or event name), in registration order, stopping at the first
truthy return. -/
theorem invokeListeners_eq_specRun (ls : List (String × Listener))
    (name : String) (ev : PyEvent) :
    (invokeListeners ls name ev).1 =
      specListenerRun
        ((ls.filter (fun p => listenerEligible p.1 name)).map (fun p => p.2))
        ev := by
  induction ls with
  | nil => rfl
  | cons hd tl ih =>
    obtain ⟨lname, l⟩ := hd
    by_cases he : listenerEligible lname name = true
    · by_cases hr : l.respond ev = true
      · simp [invokeListeners, he, hr, List.filter_cons, specListenerRun]
      · simp [invokeListeners, he, hr, List.filter_cons, specListenerRun, ih]
    · simp [invokeListeners, he, List.filter_cons, ih]

/-- C6: when a line delivered outside a request is matched by some
registered descriptor, dispatch commits to the first matching descriptor,
stamps its name (and the session as source) on the event, invokes exactly
the listeners registered under the wildcard or under that name, in
registration order, stopping at the first listener that returns true, and
reports the line handled even when no listener fired; when no descriptor
matches, nothing is invoked and the line is reported unhandled. -/
theorem c6_dispatch_listener_order
    (ms : List (String × (String → Option PyEvent)))
    (ls : List (String × Listener)) (line : String) :
    (match firstMatch ms line with
     | none => handle_device_event ms ls line = (false, [])
     | some (name, ev0) =>
       handle_device_event ms ls line =
         (true,
          specListenerRun
            ((ls.filter (fun p => listenerEligible p.1 name)).map
              (fun p => p.2))
            { ev0 with name := some name, sourceIsSession := true })) := by
  induction ms with
  | nil => rfl
  | cons hd tl ih =>
    obtain ⟨name, fm⟩ := hd
    cases hm : fm line with
    | some ev0 =>
      simp [firstMatch, handle_device_event, hm, invokeListeners_eq_specRun]
    | none =>
      simpa [firstMatch, handle_device_event, hm] using ih

/-- C8: taxonomy lookup is total: every code string yields a representable
error: a key of the class table yields an instance of the matching named
class carrying its numeric code, and any other string yields the generic
SISError carrying the raw code string. -/
theorem c8_error_lookup_total :
    ∀ s : String,
      (∃ k n d, (k, n, d) ∈ errorClasses ∧ s = "E" ++ toString n ∧
        k ≠ SISErrorKind.generic ∧
        exception_from_error_code s = ⟨k, .int (n : Int), d⟩) ∨
      exception_from_error_code s = ⟨.generic, .str s, ""⟩ := by
  intro s
  unfold exception_from_error_code
  cases hf : codes_to_exception_classes.find? (fun p => p.1 == s) with
  | none => right; rfl
  | some p =>
    left
    have hmem : p ∈ codes_to_exception_classes :=
      List.mem_of_find?_eq_some hf
    have hkey : p.1 = s := by
      have := List.find?_some hf
      simpa using this
    rw [codes_to_exception_classes, List.mem_map] at hmem
    obtain ⟨c, hc, hpc⟩ := hmem
    subst hpc
    refine ⟨c.1, c.2.1, c.2.2, hc, hkey.symm, ?_, rfl⟩
    have hall : errorClasses.all
        (fun x => decide (x.1 ≠ SISErrorKind.generic)) = true := by decide
    exact of_decide_eq_true (List.all_eq_true.mp hall c hc)

/-- C9: array item access checks the declared index domain before running
the bound item accessor: an out-of-domain index raises IndexError with the
session (and its transport write log) unchanged, for both get and set, and
the mapping delegates its length, iteration order and membership test to
the declared index domain. -/
theorem c9_array_index_domain (a : ArrayEventProperty) (σ : ExtronProtocol)
    (i : Int) (v : PyVal) (h : a.indices.contains i = false) :
    a.getitem σ i = (σ, .error "invalid index") ∧
    a.setitem σ i v = (σ, .error "invalid index") ∧
    a.length = a.indices.length ∧
    a.iter = a.indices ∧
    (∀ x, a.containsItem x = a.indices.contains x) := by
  have h2 : i ∉ a.indices := by simpa using h
  refine ⟨?_, ?_, rfl, rfl, fun _ => rfl⟩
  · simp [ArrayEventProperty.getitem, h2]
  · simp [ArrayEventProperty.setitem, h2]

/-- An array property over indices 1 to 3 whose accessors write a command
to the transport when they run, in the manner of the generated item
accessors that call make_request. -/
def sampleArrayProperty : ArrayEventProperty :=
  ⟨[1, 2, 3],
   fun σ _ => ({ σ with written := σ.written ++ ["1$"] }, some (.int 0)),
   fun σ _ _ => { σ with written := σ.written ++ ["2*1$"] }⟩

/-- C9 witness: index 5 lies outside the domain 1..3, and getting it on a
fresh session raises IndexError leaving the session untouched. -/
theorem c9_array_index_domain_witness :
    sampleArrayProperty.indices.contains 5 = false ∧
    sampleArrayProperty.getitem freshProtocol 5
      = (freshProtocol, .error "invalid index") :=
  ⟨rfl,
   (c9_array_index_domain sampleArrayProperty freshProtocol 5 (.int 7) rfl).1⟩
